import Mathlib

/-!
Verification of the `natal` statistics/configuration layer
(`src/natal/config.py`, `src/natal/stats.py`) against its
natural-language specification.

Python strings are modelled as Lean `String`s; the handful of string
methods the code uses (`lower`, `split`, `isdigit`, `title`,
`replace("_", " ")`) are given explicit ASCII-faithful definitions below.
Python `float` values that the claims inspect (`transparency`, orbs,
percentages) are modelled as exact rationals `ℚ`.  Code paths that raise
in Python (`ZeroDivisionError` in `Stats.distribution`) are modelled with
`Except String`.
-/

/-- Model of Python `str.lower` (ASCII; all table keys are ASCII). -/
def pyLower (s : String) : String := ⟨s.data.map Char.toLower⟩

/-- Model of Python `str.isdigit` on a word: nonempty and all digits. -/
def pyIsDigit (s : String) : Bool := s.data ≠ [] && s.data.all Char.isDigit

/-- Auxiliary for `pySplit`: split a character list on whitespace runs,
discarding empty pieces, accumulating the current word reversed. -/
def pySplitAux : List Char → List Char → List String
  | [], acc => if acc.isEmpty then [] else [⟨acc.reverse⟩]
  | c :: cs, acc =>
      if c.isWhitespace then
        if acc.isEmpty then pySplitAux cs [] else (⟨acc.reverse⟩ : String) :: pySplitAux cs []
      else pySplitAux cs (c :: acc)

/-- Model of Python `str.split()` with no argument: split on whitespace
runs, no empty parts. -/
def pySplit (s : String) : List String := pySplitAux s.data []

/-- Auxiliary for `pyTitle`: the Boolean records whether the previous
character was cased (a letter, in the ASCII fragment). -/
def pyTitleAux : Bool → List Char → List Char
  | _, [] => []
  | prevCased, c :: cs =>
      let cased := c.isAlpha
      let c2 := if cased then (if prevCased then c.toLower else c.toUpper) else c
      c2 :: pyTitleAux cased cs

/-- Model of Python `str.title`: uppercase every letter that follows a
non-cased character, lowercase the other letters. -/
def pyTitle (s : String) : String := ⟨pyTitleAux false s.data⟩

/-- Model of Python `text.replace("_", " ")` (single-character pattern,
hence a character-wise map). -/
def replaceUnderscores (s : String) : String :=
  ⟨s.data.map fun c => if c = '_' then ' ' else c⟩

/-- The static translation table `TRANSLATIONS` of `src/natal/config.py`:
term → (language code → translated string). -/
def TRANSLATIONS : List (String × List (String × String)) := [
  ("sun", [("ru", "Солнце"), ("ko", "태양"), ("es", "Sol")]),
  ("moon", [("ru", "Луна"), ("ko", "달"), ("es", "Luna")]),
  ("mercury", [("ru", "Меркурий"), ("ko", "수성"), ("es", "Mercurio")]),
  ("venus", [("ru", "Венера"), ("ko", "금성"), ("es", "Venus")]),
  ("mars", [("ru", "Марс"), ("ko", "화성"), ("es", "Marte")]),
  ("jupiter", [("ru", "Юпитер"), ("ko", "목성"), ("es", "Júpiter")]),
  ("saturn", [("ru", "Сатурн"), ("ko", "토성"), ("es", "Saturno")]),
  ("uranus", [("ru", "Уран"), ("ko", "천왕성"), ("es", "Urano")]),
  ("neptune", [("ru", "Нептун"), ("ko", "해왕성"), ("es", "Neptuno")]),
  ("pluto", [("ru", "Плутон"), ("ko", "명왕성"), ("es", "Plutón")]),
  ("asc_node", [("ru", "Восходящий узел"), ("ko", "상승 노드"), ("es", "Nodo ascendente")]),
  ("chiron", [("ru", "Хирон"), ("ko", "키론"), ("es", "Quirón")]),
  ("ceres", [("ru", "Церера"), ("ko", "세레스"), ("es", "Ceres")]),
  ("pallas", [("ru", "Паллада"), ("ko", "팔라스"), ("es", "Pallas")]),
  ("juno", [("ru", "Юнона"), ("ko", "주노"), ("es", "Juno")]),
  ("vesta", [("ru", "Веста"), ("ko", "베스타"), ("es", "Vesta")]),
  ("aries", [("ru", "Овен"), ("ko", "양자리"), ("es", "Aries")]),
  ("taurus", [("ru", "Телец"), ("ko", "황소자리"), ("es", "Tauro")]),
  ("gemini", [("ru", "Близнецы"), ("ko", "쌍둥이자리"), ("es", "Géminis")]),
  ("cancer", [("ru", "Рак"), ("ko", "게자리"), ("es", "Cáncer")]),
  ("leo", [("ru", "Лев"), ("ko", "사자자리"), ("es", "Leo")]),
  ("virgo", [("ru", "Дева"), ("ko", "처녀자리"), ("es", "Virgo")]),
  ("libra", [("ru", "Весы"), ("ko", "천칭자리"), ("es", "Libra")]),
  ("scorpio", [("ru", "Скорпион"), ("ko", "전갈자리"), ("es", "Escorpio")]),
  ("sagittarius", [("ru", "Стрелец"), ("ko", "사수자리"), ("es", "Sagitario")]),
  ("capricorn", [("ru", "Козерог"), ("ko", "염소자리"), ("es", "Capricornio")]),
  ("aquarius", [("ru", "Водолей"), ("ko", "물병자리"), ("es", "Acuario")]),
  ("pisces", [("ru", "Рыбы"), ("ko", "물고기자리"), ("es", "Piscis")]),
  ("conjunction", [("ru", "Соединение"), ("ko", "합"), ("es", "Conjunción")]),
  ("opposition", [("ru", "Оппозиция"), ("ko", "충"), ("es", "Oposición")]),
  ("trine", [("ru", "Трин"), ("ko", "삼각"), ("es", "Trígono")]),
  ("square", [("ru", "Квадрат"), ("ko", "사각"), ("es", "Cuadratura")]),
  ("sextile", [("ru", "Секстиль"), ("ko", "육각"), ("es", "Sextil")]),
  ("quincunx", [("ru", "Квинконкс"), ("ko", "퀸컹크스"), ("es", "Quincuncio")]),
  ("fire", [("ru", "Огонь"), ("ko", "불"), ("es", "Fuego")]),
  ("earth", [("ru", "Земля"), ("ko", "흙"), ("es", "Tierra")]),
  ("air", [("ru", "Воздух"), ("ko", "공기"), ("es", "Aire")]),
  ("water", [("ru", "Вода"), ("ko", "물"), ("es", "Agua")]),
  ("cardinal", [("ru", "Кардинальный"), ("ko", "활동궁"), ("es", "Cardinal")]),
  ("fixed", [("ru", "Фиксированный"), ("ko", "고정궁"), ("es", "Fijo")]),
  ("mutable", [("ru", "Мутабельный"), ("ko", "변통궁"), ("es", "Mutable")]),
  ("positive", [("ru", "Позитивная"), ("ko", "양성"), ("es", "Positivo")]),
  ("negative", [("ru", "Негативная"), ("ko", "음성"), ("es", "Negativo")]),
  ("asc", [("ru", "Асцендент"), ("ko", "상승점"), ("es", "Ascendente")]),
  ("dsc", [("ru", "Десцендент"), ("ko", "하강점"), ("es", "Descendente")]),
  ("mc", [("ru", "Середина неба"), ("ko", "중천"), ("es", "Medio Cielo")]),
  ("ic", [("ru", "Надир"), ("ko", "천저"), ("es", "Imum Coeli")]),
  ("ruler", [("ru", "Управитель"), ("ko", "지배성"), ("es", "Regente")]),
  ("detriment", [("ru", "Изгнание"), ("ko", "손상"), ("es", "Detrimento")]),
  ("exaltation", [("ru", "Экзальтация"), ("ko", "고양"), ("es", "Exaltación")]),
  ("fall", [("ru", "Падение"), ("ko", "쇠약"), ("es", "Caída")]),
  ("house", [("ru", "Дом"), ("ko", "하우스"), ("es", "Casa")]),
  ("distribution", [("ru", "Распределение"), ("ko", "분포"), ("es", "Distribución")]),
  ("quadrant", [("ru", "Квадрант"), ("ko", "사분면"), ("es", "Cuadrante")]),
  ("hemisphere", [("ru", "Полушарие"), ("ko", "반구"), ("es", "Hemisferio")]),
  ("basic_info", [("ru", "Основная информация"), ("ko", "기본 정보"), ("es", "Información básica")]),
  ("element_distribution", [("ru", "Распределение по стихиям"), ("ko", "원소 분포"), ("es", "Distribución de elementos")]),
  ("modality_distribution", [("ru", "Распределение по модальностям"), ("ko", "양상 분포"), ("es", "Distribución de modalidades")]),
  ("polarity_distribution", [("ru", "Распределение по полярностям"), ("ko", "극성 분포"), ("es", "Distribución de polaridades")]),
  ("celestial_bodies", [("ru", "Небесные тела"), ("ko", "천체"), ("es", "Cuerpos celestes")]),
  ("houses", [("ru", "Дома"), ("ko", "하우스"), ("es", "Casas")]),
  ("quadrants", [("ru", "Квадранты"), ("ko", "사분면"), ("es", "Cuadrantes")]),
  ("hemispheres", [("ru", "Полушария"), ("ko", "반구"), ("es", "Hemisferios")]),
  ("aspects", [("ru", "Аспекты"), ("ko", "각"), ("es", "Aspectos")]),
  ("composite_aspects", [("ru", "Композитные аспекты"), ("ko", "합성 각"), ("es", "Aspectos compuestos")]),
  ("cross_aspects", [("ru", "Перекрестные аспекты"), ("ko", "교차 각"), ("es", "Aspectos cruzados")])]

/-- Model of `get_translation(text, lang)` of `src/natal/config.py`:
English gets underscore-to-space + title-case; other languages lower-case
the text, handle a `word number...` shape by translating the first word
and appending the second, and otherwise look the whole key up with a
title-cased English fallback. -/
def get_translation (text lang : String) : String :=
  if lang = "en" then pyTitle (replaceUnderscores text)
  else
    let key := pyLower text
    let parts := pySplit key
    if parts.length > 1 ∧ pyIsDigit (parts.getD 1 "") ∧ (TRANSLATIONS.lookup (parts.getD 0 "")).isSome then
      let baseKey := parts.getD 0 ""
      let baseTranslation :=
        (((TRANSLATIONS.lookup baseKey).getD []).lookup lang).getD (pyTitle baseKey)
      baseTranslation ++ " " ++ parts.getD 1 ""
    else
      (((TRANSLATIONS.lookup key).getD []).lookup lang).getD (pyTitle (replaceUnderscores text))

example : get_translation "house 3" "ru" = "Дом 3" := by decide
example : get_translation "unknown_term" "es" = "Unknown Term" := by decide
example : get_translation "house 3 x" "ru" = "Дом 3" := by decide
example : get_translation "basic_info" "en" = "Basic Info" := by decide

/-- A value stored in a pydantic field of a `Theme`: a color string or a
number (`transparency`, modelled as an exact rational). -/
inductive ThemeVal where
  | str : String → ThemeVal
  | num : ℚ → ThemeVal
deriving DecidableEq

/-- The `Theme` model of `src/natal/config.py`: named colors plus
foreground, background, dim and a transparency number. -/
structure Theme where
  fire : String
  earth : String
  air : String
  water : String
  points : String
  asteroids : String
  positive : String
  negative : String
  others : String
  transparency : ℚ
  foreground : String
  background : String
  dim : String
deriving DecidableEq

/-- `LightTheme()` default instance. -/
def LightTheme : Theme :=
  { fire := "#ef476f", earth := "#ffd166", air := "#06d6a0", water := "#81bce7"
    points := "#118ab2", asteroids := "#AA96DA", positive := "#FFC0CB"
    negative := "#AD8B73", others := "#FFA500", transparency := 1/10
    foreground := "#758492", background := "#FFFDF1", dim := "#A4BACD" }

/-- `DarkTheme()` default instance. -/
def DarkTheme : Theme :=
  { LightTheme with foreground := "#F7F3F0", background := "#343a40", dim := "#515860" }

/-- Model of pydantic `Theme.model_dump()`: field name/value pairs in
declaration order (base `Theme` fields first, overridden fields keep
their base position). -/
def Theme.model_dump (t : Theme) : List (String × ThemeVal) :=
  [("fire", .str t.fire), ("earth", .str t.earth), ("air", .str t.air),
   ("water", .str t.water), ("points", .str t.points),
   ("asteroids", .str t.asteroids), ("positive", .str t.positive),
   ("negative", .str t.negative), ("others", .str t.others),
   ("transparency", .num t.transparency), ("foreground", .str t.foreground),
   ("background", .str t.background), ("dim", .str t.dim)]

/-- Model of Python dict assignment `kwargs[k] = v`: replace the value at
an existing key in place, otherwise append the pair. -/
def dictSet (kw : List (String × ThemeVal)) (k : String) (v : ThemeVal) :
    List (String × ThemeVal) :=
  if kw.any (fun kv => kv.1 == k) then
    kw.map (fun kv => if kv.1 == k then (kv.1, v) else kv)
  else kw ++ [(k, v)]

/-- Fetch a string-typed field from keyword arguments (pydantic would
reject a missing or non-string value). -/
def kwStr (kw : List (String × ThemeVal)) (k : String) : Option String :=
  match kw.lookup k with
  | some (.str v) => some v
  | _ => none

/-- Fetch a number-typed field from keyword arguments. -/
def kwNum (kw : List (String × ThemeVal)) (k : String) : Option ℚ :=
  match kw.lookup k with
  | some (.num v) => some v
  | _ => none

/-- Model of `Theme(**kwargs)`: build a `Theme` from keyword arguments,
`none` when a required field is missing or has the wrong type. -/
def Theme.ofKwargs (kw : List (String × ThemeVal)) : Option Theme := do
  let fire ← kwStr kw "fire"
  let earth ← kwStr kw "earth"
  let air ← kwStr kw "air"
  let water ← kwStr kw "water"
  let points ← kwStr kw "points"
  let asteroids ← kwStr kw "asteroids"
  let positive ← kwStr kw "positive"
  let negative ← kwStr kw "negative"
  let others ← kwStr kw "others"
  let transparency ← kwNum kw "transparency"
  let foreground ← kwStr kw "foreground"
  let background ← kwStr kw "background"
  let dim ← kwStr kw "dim"
  pure { fire, earth, air, water, points, asteroids, positive, negative,
         others, transparency, foreground, background, dim }

/-- The `light | dark | mono` theme selector. -/
inductive ThemeType where
  | light | dark | mono
deriving DecidableEq

/-- The `Config` model of `src/natal/config.py` (the fields the verified
claims touch; orb, display and chart settings are untyped records the
claims never read). -/
structure Config where
  theme_type : ThemeType := .dark
  light_theme : Theme := LightTheme
  dark_theme : Theme := DarkTheme
deriving DecidableEq

/-- Model of the derived property `Config.theme`: `light`/`dark` return
the stored palettes; `mono` rebuilds keyword arguments from the light
theme's field set, every value replaced by the fixed gray, then overrides
`background` with white and `transparency` with `0`, and constructs a
fresh `Theme` (`none` models a pydantic validation error). -/
def Config.theme (c : Config) : Option Theme :=
  match c.theme_type with
  | .light => some c.light_theme
  | .dark => some c.dark_theme
  | .mono =>
      let kwargs := c.light_theme.model_dump.map (fun kv => (kv.1, ThemeVal.str "#888888"))
      let kwargs := dictSet kwargs "background" (.str "#FFFFFF")
      let kwargs := dictSet kwargs "transparency" (.num 0)
      Theme.ofKwargs kwargs

/-- The `Theme` value synthesized by the `mono` branch. -/
def monoTheme : Theme :=
  { fire := "#888888", earth := "#888888", air := "#888888", water := "#888888"
    points := "#888888", asteroids := "#888888", positive := "#888888"
    negative := "#888888", others := "#888888", transparency := 0
    foreground := "#888888", background := "#FFFFFF", dim := "#888888" }

example : ({ theme_type := .mono } : Config).theme = some monoTheme := by decide

/-- Model of Python `setattr` over a dict-like record viewed as a total
assignment of values to attribute names. -/
def pySetattr {V : Type} (self : String → V) (k : String) (v : V) : String → V :=
  fun q => if q = k then v else self q

/-- Model of `Dictable.update(other=None, **kwargs)` of
`src/natal/config.py`: `setattr` once per `other` item, then once per
keyword item. -/
def Dictable.update {V : Type} (self : String → V)
    (other : Option (List (String × V))) (kwargs : List (String × V)) :
    String → V :=
  let s1 := match other with
    | none => self
    | some o => o.foldl (fun st kv => pySetattr st kv.1 kv.2) self
  kwargs.foldl (fun st kv => pySetattr st kv.1 kv.2) s1

/-- A grid of cells; every cell the statistics code produces is a string
(translated names, `dms` strings, formatted numbers). -/
abbrev Grid := List (List String)

/-- The `StatData` record of `src/natal/stats.py`: a title and a grid,
the grid defaulting to empty (section-header-only entries). -/
structure StatData where
  title : String
  grid : Grid := []
deriving DecidableEq

/-- The `DistKind` enum of `src/natal/stats.py`, members in declaration
order. -/
inductive DistKind where
  | element | modality | polarity
deriving DecidableEq

/-- The `value` string of a `DistKind` member (it is a `str` enum). -/
def DistKind.value : DistKind → String
  | .element => "element"
  | .modality => "modality"
  | .polarity => "polarity"

/-- Iteration order `for kind in DistKind`: declaration order. -/
def DistKind.all : List DistKind := [.element, .modality, .polarity]

/-- A named member of a constant list from `natal.const` (element,
modality, polarity or aspect members); the statistics code reads only
`.name`. -/
structure Member where
  name : String
deriving DecidableEq

/-- Modelled from the spec: `ELEMENT_MEMBERS` of `natal.const` is not
among the source files; §3/§8 and the translation table give the four
elements in order fire, earth, air, water. -/
def ELEMENT_MEMBERS : List Member := [⟨"fire"⟩, ⟨"earth"⟩, ⟨"air"⟩, ⟨"water"⟩]

/-- Modelled from the spec: `MODALITY_MEMBERS` of `natal.const` is not
among the source files; the spec's translation table gives cardinal,
fixed, mutable. -/
def MODALITY_MEMBERS : List Member := [⟨"cardinal"⟩, ⟨"fixed"⟩, ⟨"mutable"⟩]

/-- Modelled from the spec: `POLARITY_MEMBERS` of `natal.const` is not
among the source files; the spec's translation table gives positive,
negative. -/
def POLARITY_MEMBERS : List Member := [⟨"positive"⟩, ⟨"negative"⟩]

/-- Explicit rendering of the source's `globals()[f"..._MEMBERS"]`
dispatch from a distribution kind to its member list. -/
def distKindMembers : DistKind → List Member
  | .element => ELEMENT_MEMBERS
  | .modality => MODALITY_MEMBERS
  | .polarity => POLARITY_MEMBERS

/-- Modelled from the spec: the external `Sign` collaborator (§6) with
rulership, dignity and category fields, all plain names. -/
structure Sign where
  name : String
  ruler : String
  classic_ruler : String
  detriment : String
  classic_detriment : String
  exaltation : String
  fall : String
  element : String
  modality : String
  polarity : String
deriving DecidableEq

/-- The source's `getattr(planet.sign, dist_kind.value)` as an explicit
match on the closed kind set. -/
def Sign.category (sign : Sign) : DistKind → String
  | .element => sign.element
  | .modality => sign.modality
  | .polarity => sign.polarity

/-- Modelled from the spec: an external celestial body (§6) with a name,
an occupied sign and a degree-minute-second position string. -/
structure MovableBody where
  name : String
  sign : Sign
  dms : String
deriving DecidableEq

/-- Modelled from the spec: the external `Aspect` collaborator (§6):
two bodies, the aspect member and an orb in degrees (exact rational). -/
structure Aspect where
  body1 : MovableBody
  body2 : MovableBody
  aspect_member : Member
  orb : ℚ
deriving DecidableEq

/-- Modelled from the spec: the external `House` collaborator: a house
number (`.value`), its sign and the name of its ruler. -/
structure House where
  value : ℕ
  sign : Sign
  ruler : String
deriving DecidableEq

/-- Modelled from the spec: the external `Data` collaborator (§6) with
the fields the statistics engine reads: ordered planets, houses, four
quadrant groups, hemisphere groups, aspects, and the house lookup
`body.house_of(data)` viewed from the data side. -/
structure Data where
  planets : List MovableBody
  houses : List House
  quadrants : Fin 4 → List MovableBody
  east : List MovableBody
  west : List MovableBody
  north : List MovableBody
  south : List MovableBody
  aspects : List Aspect
  house_of : MovableBody → ℕ

/-- The source's `getattr(self.data1, hemisphere)` restricted to the four
attribute names `full_report` passes; any other name is an attribute
error (`none`). -/
def Data.hemisphereBodies (d : Data) (h : String) : Option (List MovableBody) :=
  if h = "east" then some d.east
  else if h = "west" then some d.west
  else if h = "north" then some d.north
  else if h = "south" then some d.south
  else none

/-- The `Stats` object of `src/natal/stats.py`.  Its `__init__` stores
`data1`, `data2` and `lang` and computes `composite_aspects` once from
`data1.calculate_aspects(data1.composite_aspects_pairs(data2))` (external
methods); that precomputed list is carried here as a field. -/
structure Stats where
  data1 : Data
  data2 : Option Data
  lang : String
  composite_aspects : List Aspect

/-- The `_t` translation helper of `Stats`. -/
def Stats.tr (s : Stats) (text : String) : String := get_translation text s.lang

/-- Model of Python `f"{q:.2f}"`: the rational rounded to two decimal
places (ties toward positive infinity — the claims never inspect a tie),
rendered with exactly two fraction digits. -/
def fmt2 (q : ℚ) : String :=
  let n : ℤ := (q * 100 + 1/2).floor
  let a := n.natAbs
  let frac := a % 100
  (if n < 0 then "-" else "") ++ toString (a / 100) ++ "." ++
    (if frac < 10 then "0" else "") ++ toString frac

/-- Model of `Stats.dignity_of(body, data)`: ruler, detriment,
exaltation, fall checked in that order against the occupied sign, the
label translated, empty string when none applies (the `data` parameter is
unused in the source as well). -/
def Stats.dignity_of (s : Stats) (body : MovableBody) (_data : Data) : String :=
  let sign := body.sign
  let dignity_type : String :=
    if sign.ruler = body.name ∨ sign.classic_ruler = body.name then "ruler"
    else if sign.detriment = body.name ∨ sign.classic_detriment = body.name then "detriment"
    else if sign.exaltation = body.name then "exaltation"
    else if sign.fall = body.name then "fall"
    else ""
  if dignity_type = "" then "" else s.tr dignity_type

/-- Model of `Stats.basic_info(data)`: one row per planet with translated
name, translated sign, position, house label and dignity. -/
def Stats.basic_info (s : Stats) (data : Data) : StatData :=
  { title := s.tr "basic_info"
    grid := data.planets.map fun body =>
      [s.tr body.name, s.tr body.sign.name, body.dms,
       "h" ++ toString (data.house_of body), s.dignity_of body data] }

/-- The planet count behind one `distribution` row: planets of `data1`
whose sign carries the member's category name. -/
def Stats.distCount (s : Stats) (k : DistKind) (item : Member) : ℕ :=
  s.data1.planets.countP fun planet => planet.sign.category k == item.name

/-- Python division: `ZeroDivisionError` on a zero divisor. -/
def pyDiv (a b : ℚ) : Except String ℚ :=
  if b = 0 then .error "ZeroDivisionError" else .ok (a / b)

/-- The exact percentage value behind one `distribution` row. -/
def Stats.distPercent (s : Stats) (k : DistKind) (item : Member) : ℚ :=
  ((s.distCount k item : ℚ) / (s.data1.planets.length : ℚ)) * 100

/-- One row of `Stats.distribution`: translated member name, count, and
percentage of `data1`'s planets formatted to two decimals; the division
raises when `data1` has no planets. -/
def Stats.distRow (s : Stats) (k : DistKind) (item : Member) :
    Except String (List String) := do
  let count := s.distCount k item
  let ratio ← pyDiv (count : ℚ) (s.data1.planets.length : ℚ)
  let percentage := ratio * 100
  .ok [s.tr item.name, toString count, fmt2 percentage ++ "%"]

/-- Model of `Stats.distribution(dist_kind)`: a row per member of the
kind's list, with the title `"<kind> distribution"` translated. -/
def Stats.distribution (s : Stats) (dist_kind : DistKind) :
    Except String StatData := do
  let rows ← (distKindMembers dist_kind).mapM (s.distRow dist_kind)
  .ok { title := s.tr dist_kind.value ++ " " ++ s.tr "distribution", grid := rows }

/-- Model of `Stats.celestial_body(body)`: sign/position row then
house/dignity row. -/
def Stats.celestial_body (s : Stats) (body : MovableBody) : StatData :=
  { title := s.tr "aspects" ++ " for " ++ s.tr body.name
    grid := [[s.tr body.sign.name, body.dms],
             ["h" ++ toString (s.data1.house_of body), s.dignity_of body s.data1]] }

/-- Model of `Stats.data2_celestial_body(body)`: like `celestial_body`
but against `data2`, the house label suffixed " in synastry"; `none`
models the attribute error when `data2` is absent. -/
def Stats.data2_celestial_body (s : Stats) (body : MovableBody) : Option StatData :=
  s.data2.map fun d2 =>
    { title := s.tr "aspects" ++ " for " ++ s.tr body.name
      grid := [[s.tr body.sign.name, body.dms],
               ["h" ++ toString (d2.house_of body) ++ " in synastry",
                s.dignity_of body d2]] }

/-- Model of `Stats.house(house)`: translated `house <n>` title and one
row with the sign and its translated ruler. -/
def Stats.house (s : Stats) (house : House) : StatData :=
  { title := s.tr ("house " ++ toString house.value)
    grid := [[s.tr house.sign.name, s.tr "ruler" ++ ": " ++ s.tr house.ruler]] }

/-- Model of `Stats.quadrant(quadrant_num)` for the 1-based numbers 1..4
`full_report` passes: title `quadrant <n>`, one row per body of the
quadrant group. -/
def Stats.quadrant (s : Stats) (i : Fin 4) : StatData :=
  { title := s.tr ("quadrant " ++ toString (i.val + 1))
    grid := (s.data1.quadrants i).map fun body =>
      [s.tr body.name, s.tr body.sign.name, body.dms] }

/-- Model of `Stats.hemisphere(hemisphere)`: title `<name> hemisphere`,
one row per body of the named hemisphere group; `none` models the
attribute error on an unknown name. -/
def Stats.hemisphere (s : Stats) (hemisphere : String) : Option StatData :=
  (s.data1.hemisphereBodies hemisphere).map fun bodies =>
    { title := s.tr hemisphere ++ " " ++ s.tr "hemisphere"
      grid := bodies.map fun body => [s.tr body.name, s.tr body.sign.name, body.dms] }

/-- Model of `Stats.aspect(aspect)`: translated aspect-member title and a
single row with both body names and the orb to two decimals with a
degree sign. -/
def Stats.aspect (s : Stats) (aspect : Aspect) : StatData :=
  { title := s.tr aspect.aspect_member.name
    grid := [[s.tr aspect.body1.name, s.tr aspect.body2.name, fmt2 aspect.orb ++ "°"]] }

/-- Model of `Stats.composite_aspect(aspect)`: written in the source as a
separate method with the same body as `Stats.aspect`. -/
def Stats.composite_aspect (s : Stats) (aspect : Aspect) : StatData :=
  { title := s.tr aspect.aspect_member.name
    grid := [[s.tr aspect.body1.name, s.tr aspect.body2.name, fmt2 aspect.orb ++ "°"]] }

/-- Model of `Stats.full_report()`: basic info, the three distributions
in `DistKind` order, then the celestial-bodies, houses, quadrants,
hemispheres and aspects sections, each introduced by an empty-grid
header; a distribution error (zero planets) propagates. -/
def Stats.full_report (s : Stats) : Except String (List StatData) := do
  let dists ← DistKind.all.mapM s.distribution
  .ok ([s.basic_info s.data1] ++ dists
    ++ [{ title := s.tr "celestial_bodies" }] ++ s.data1.planets.map s.celestial_body
    ++ [{ title := s.tr "houses" }] ++ s.data1.houses.map s.house
    ++ [{ title := s.tr "quadrants" }] ++ (List.finRange 4).map s.quadrant
    ++ [{ title := s.tr "hemispheres" }]
    ++ (["east", "west", "north", "south"].filterMap s.hemisphere)
    ++ [{ title := s.tr "aspects" }] ++ s.data1.aspects.map s.aspect)

/-- Modelled from the spec: `Stats.composite_report` is called by
`table_of` (src/natal/stats.py line 230) but its definition is not among
the source files.  §4.2 describes it as the composite report variant,
"symmetric to full but using composite_aspects/data2 entries; construct
analogously": the second data source's bodies are reported through
`data2_celestial_body` and the precomputed composite aspects through
`composite_aspect`; absent `data2` is an attribute error. -/
def Stats.composite_report (s : Stats) : Except String (List StatData) :=
  match s.data2 with
  | none => .error "AttributeError"
  | some d2 => do
      let dists ← DistKind.all.mapM s.distribution
      .ok ([s.basic_info d2] ++ dists
        ++ [{ title := s.tr "celestial_bodies" }]
        ++ d2.planets.filterMap s.data2_celestial_body
        ++ [{ title := s.tr "composite_aspects" }]
        ++ s.composite_aspects.map s.composite_aspect)

/-- Model of `Stats.table_of(report_kind)`: dispatch on the kind string
(the Python `ReportKind` is a `str` enum compared with `==`), empty list
for any other kind. -/
def Stats.table_of (s : Stats) (report_kind : String) : Except String (List StatData) :=
  if report_kind = "full" then s.full_report
  else if report_kind = "composite" then s.composite_report
  else .ok []

/-- The `StatData` a successful `distribution` call produces: its rows
carry the member counts and exact percentages. -/
def Stats.distStat (s : Stats) (k : DistKind) : StatData :=
  { title := s.tr k.value ++ " " ++ s.tr "distribution"
    grid := (distKindMembers k).map fun item =>
      [s.tr item.name, toString (s.distCount k item), fmt2 (s.distPercent k item) ++ "%"] }

/-- The report sequence the spec prescribes for `full_report` (§4.2),
written out as the explicit concatenation of sections: basic info, the
three distributions in enum declaration order, then each section header
(empty grid) followed by its entries — bodies, houses, quadrants 1..4,
hemispheres east/west/north/south, aspects. -/
def Stats.full_report_spec (s : Stats) : List StatData :=
  [s.basic_info s.data1]
  ++ [s.distStat .element, s.distStat .modality, s.distStat .polarity]
  ++ [{ title := s.tr "celestial_bodies", grid := [] }]
  ++ s.data1.planets.map s.celestial_body
  ++ [{ title := s.tr "houses", grid := [] }]
  ++ s.data1.houses.map s.house
  ++ [{ title := s.tr "quadrants", grid := [] }]
  ++ [s.quadrant 0, s.quadrant 1, s.quadrant 2, s.quadrant 3]
  ++ [{ title := s.tr "hemispheres", grid := [] }]
  ++ [{ title := s.tr "east" ++ " " ++ s.tr "hemisphere",
        grid := s.data1.east.map fun b => [s.tr b.name, s.tr b.sign.name, b.dms] },
      { title := s.tr "west" ++ " " ++ s.tr "hemisphere",
        grid := s.data1.west.map fun b => [s.tr b.name, s.tr b.sign.name, b.dms] },
      { title := s.tr "north" ++ " " ++ s.tr "hemisphere",
        grid := s.data1.north.map fun b => [s.tr b.name, s.tr b.sign.name, b.dms] },
      { title := s.tr "south" ++ " " ++ s.tr "hemisphere",
        grid := s.data1.south.map fun b => [s.tr b.name, s.tr b.sign.name, b.dms] }]
  ++ [{ title := s.tr "aspects", grid := [] }]
  ++ s.data1.aspects.map s.aspect

/-- The amended lookup contract for non-English languages, written from
the amended claim's words: after lowercasing, when the text splits into
two or more whitespace tokens whose second is all digits and whose first
is a table key, the result is the first token's translation (title-cased
first token when the language is missing) followed by a space and the
second token — any later tokens are dropped; otherwise the whole
lowercased text is looked up, falling back to the title-cased English
form when the text or the language is missing. -/
def translationAmendedSpec (text lang : String) : String :=
  let fallback := (((TRANSLATIONS.lookup (pyLower text)).getD []).lookup lang).getD
      (pyTitle (replaceUnderscores text))
  match pySplit (pyLower text) with
  | w1 :: w2 :: _ =>
      if pyIsDigit w2 then
        match TRANSLATIONS.lookup w1 with
        | some entry => (entry.lookup lang).getD (pyTitle w1) ++ " " ++ w2
        | none => fallback
      else fallback
  | _ => fallback

attribute [local semireducible] Rat.add Rat.mul Rat.sub Rat.inv

/-- A concrete sign for witnesses: Aries with its standard rulerships. -/
def ariesSign : Sign :=
  { name := "aries", ruler := "mars", classic_ruler := "mars"
    detriment := "venus", classic_detriment := "venus"
    exaltation := "sun", fall := "saturn"
    element := "fire", modality := "cardinal", polarity := "positive" }

/-- A concrete body for witnesses: Mars in Aries. -/
def marsBody : MovableBody := { name := "mars", sign := ariesSign, dms := "15°00" }

/-- A concrete one-planet data source for witnesses. -/
def sampleData : Data :=
  { planets := [marsBody], houses := [], quadrants := fun _ => []
    east := [], west := [], north := [], south := [], aspects := []
    house_of := fun _ => 1 }

/-- A concrete `Stats` over `sampleData`, English reports. -/
def sampleStats : Stats :=
  { data1 := sampleData, data2 := none, lang := "en", composite_aspects := [] }

/-- A data source with zero planets (the division-by-zero input). -/
def emptyData : Data :=
  { planets := [], houses := [], quadrants := fun _ => []
    east := [], west := [], north := [], south := [], aspects := []
    house_of := fun _ => 1 }

/-- A concrete `Stats` whose `data1` has zero planets. -/
def emptyStats : Stats :=
  { data1 := emptyData, data2 := none, lang := "en", composite_aspects := [] }

/-- Propositional equality test for `Except` values, decidable when both
components are. -/
instance {ε α : Type} [DecidableEq ε] [DecidableEq α] : DecidableEq (Except ε α)
  | .error e, .error f => decidable_of_iff (e = f) (by simp)
  | .error _, .ok _ => isFalse (by simp)
  | .ok _, .error _ => isFalse (by simp)
  | .ok a, .ok b => decidable_of_iff (a = b) (by simp)

example : sampleStats.distribution .element =
    .ok { title := "Element Distribution"
          grid := [["Fire", "1", "100.00%"], ["Earth", "0", "0.00%"],
                   ["Air", "0", "0.00%"], ["Water", "0", "0.00%"]] } := by decide

example : emptyStats.distribution .element = .error "ZeroDivisionError" := rfl

example : emptyStats.full_report = .error "ZeroDivisionError" := rfl

example : sampleStats.table_of "bogus" = .ok [] := rfl

example : sampleStats.dignity_of marsBody sampleData = "Ruler" := by decide

/-- Unfolded form of `dignity_of`: the four dignity conditions in priority
order, the translated label, empty string otherwise. -/
theorem dignity_of_eq (s : Stats) (body : MovableBody) (data : Data) :
    s.dignity_of body data =
      if body.sign.ruler = body.name ∨ body.sign.classic_ruler = body.name then s.tr "ruler"
      else if body.sign.detriment = body.name ∨ body.sign.classic_detriment = body.name then
        s.tr "detriment"
      else if body.sign.exaltation = body.name then s.tr "exaltation"
      else if body.sign.fall = body.name then s.tr "fall"
      else "" := by
  unfold Stats.dignity_of
  split_ifs <;> simp_all

/-- C5: `dignity_of` returns one of the translated labels ruler,
detriment, exaltation, fall or the empty string, the four conditions
checked in that priority order against the occupied sign, the empty
string when none applies; being a total function of the embedding it
never raises. -/
theorem C5_dignity_of_cases (s : Stats) (body : MovableBody) (data : Data) :
    (s.dignity_of body data = "" ∨ s.dignity_of body data = s.tr "ruler" ∨
     s.dignity_of body data = s.tr "detriment" ∨
     s.dignity_of body data = s.tr "exaltation" ∨
     s.dignity_of body data = s.tr "fall") ∧
    ((body.sign.ruler = body.name ∨ body.sign.classic_ruler = body.name) →
      s.dignity_of body data = s.tr "ruler") ∧
    (¬(body.sign.ruler = body.name ∨ body.sign.classic_ruler = body.name) →
      (body.sign.detriment = body.name ∨ body.sign.classic_detriment = body.name) →
      s.dignity_of body data = s.tr "detriment") ∧
    (¬(body.sign.ruler = body.name ∨ body.sign.classic_ruler = body.name) →
      ¬(body.sign.detriment = body.name ∨ body.sign.classic_detriment = body.name) →
      body.sign.exaltation = body.name →
      s.dignity_of body data = s.tr "exaltation") ∧
    (¬(body.sign.ruler = body.name ∨ body.sign.classic_ruler = body.name) →
      ¬(body.sign.detriment = body.name ∨ body.sign.classic_detriment = body.name) →
      ¬(body.sign.exaltation = body.name) →
      body.sign.fall = body.name →
      s.dignity_of body data = s.tr "fall") ∧
    (¬(body.sign.ruler = body.name ∨ body.sign.classic_ruler = body.name) →
      ¬(body.sign.detriment = body.name ∨ body.sign.classic_detriment = body.name) →
      ¬(body.sign.exaltation = body.name) →
      ¬(body.sign.fall = body.name) →
      s.dignity_of body data = "") := by
  rw [dignity_of_eq]
  split_ifs <;> simp_all

/-- Witness for C5 at Mars in Aries: the ruler condition holds and the
translated ruler label is returned. -/
theorem C5_witness :
    sampleStats.dignity_of marsBody sampleData = sampleStats.tr "ruler" :=
  (C5_dignity_of_cases sampleStats marsBody sampleData).2.1 (Or.inl rfl)

/-- C7: for every input text, the English lookup is exactly
underscore-to-space plus title-casing, translation table not consulted. -/
theorem C7_get_translation_english (text : String) :
    get_translation text "en" = pyTitle (replaceUnderscores text) := rfl

/-- C10: `aspect` and `composite_aspect` agree on every aspect: same
translated title and the same single body1/body2/orb row. -/
theorem C10_aspect_composite_identical (s : Stats) (a : Aspect) :
    s.aspect a = s.composite_aspect a ∧
    s.aspect a = { title := s.tr a.aspect_member.name
                   grid := [[s.tr a.body1.name, s.tr a.body2.name, fmt2 a.orb ++ "°"]] } :=
  ⟨rfl, rfl⟩

/-- C8: on a `mono` configuration the synthesized theme has a white
background, zero transparency, and the fixed gray in every other field
(all taken from the light theme's field set). -/
theorem C8_mono_theme_synthesis (c : Config) :
    Config.theme { c with theme_type := ThemeType.mono } = some monoTheme ∧
    monoTheme.background = "#FFFFFF" ∧ monoTheme.transparency = 0 ∧
    monoTheme.fire = "#888888" ∧ monoTheme.earth = "#888888" ∧
    monoTheme.air = "#888888" ∧ monoTheme.water = "#888888" ∧
    monoTheme.points = "#888888" ∧ monoTheme.asteroids = "#888888" ∧
    monoTheme.positive = "#888888" ∧ monoTheme.negative = "#888888" ∧
    monoTheme.others = "#888888" ∧ monoTheme.foreground = "#888888" ∧
    monoTheme.dim = "#888888" :=
  ⟨rfl, rfl, rfl, rfl, rfl, rfl, rfl, rfl, rfl, rfl, rfl, rfl, rfl, rfl⟩

/-- C1: `table_of` dispatches `full` to `full_report`, `composite` to
`composite_report` (the composite report variant), and every other kind
to an empty sequence without an error. -/
theorem C1_table_of_dispatch (s : Stats) (report_kind : String) :
    s.table_of "full" = s.full_report ∧
    s.table_of "composite" = s.composite_report ∧
    (report_kind ≠ "full" → report_kind ≠ "composite" →
      s.table_of report_kind = .ok []) := by
  refine ⟨rfl, rfl, fun h1 h2 => ?_⟩
  simp [Stats.table_of, h1, h2]

/-- Witness for C1 at the report kind "bogus". -/
theorem C1_witness : sampleStats.table_of "bogus" = .ok [] :=
  (C1_table_of_dispatch sampleStats "bogus").2.2 (by decide) (by decide)

/-- `lookup` distributes over append: the left list wins. -/
theorem lookup_append {β : Type} (l1 l2 : List (String × β)) (k : String) :
    (l1 ++ l2).lookup k = ((l1.lookup k).orElse fun _ => l2.lookup k) := by
  induction l1 with
  | nil => simp [List.lookup]
  | cons kv t ih =>
      obtain ⟨k1, v1⟩ := kv
      cases hb : k == k1 <;> simp [List.lookup, hb, ih, Option.orElse]

/-- A left fold of `setattr` steps reads back as a reversed lookup with
the initial record as fallback. -/
theorem foldl_pySetattr {V : Type} (l : List (String × V)) (st : String → V) (k : String) :
    (l.foldl (fun acc kv => pySetattr acc kv.1 kv.2) st) k
      = (l.reverse.lookup k).getD (st k) := by
  induction l generalizing st with
  | nil => rfl
  | cons kv t ih =>
      rw [List.foldl_cons, ih, List.reverse_cons, lookup_append]
      cases h : t.reverse.lookup k with
      | some v => simp [Option.orElse]
      | none =>
          by_cases hk : k = kv.1
          · simp [Option.orElse, List.lookup, pySetattr, hk]
          · have hk2 : (k == kv.1) = false := beq_eq_false_iff_ne.mpr hk
            simp [Option.orElse, List.lookup, pySetattr, hk, hk2]

/-- C9: `update` is exactly "last provided binding wins, everything else
untouched": the updated record at any key equals the last value provided
for that key (keyword arguments after the mapping), and the original
value when the key was not provided. -/
theorem C9_update_only_provided_keys {V : Type} (self : String → V)
    (other : Option (List (String × V))) (kwargs : List (String × V)) (k : String) :
    Dictable.update self other kwargs k
      = (((other.getD [] ++ kwargs).reverse).lookup k).getD (self k) := by
  cases other with
  | none => simpa [Dictable.update] using foldl_pySetattr kwargs self k
  | some o =>
      have h1 : Dictable.update self (some o) kwargs k
          = (kwargs.reverse.lookup k).getD
              ((o.foldl (fun st kv => pySetattr st kv.1 kv.2) self) k) := by
        simpa [Dictable.update] using
          foldl_pySetattr kwargs (o.foldl (fun st kv => pySetattr st kv.1 kv.2) self) k
      rw [h1, foldl_pySetattr o self k]
      simp only [Option.getD_some, List.reverse_append, lookup_append]
      cases h : kwargs.reverse.lookup k <;> simp [Option.orElse]

/-- C2 counterexample: on a `Stats` whose `data1` has zero planets,
`distribution` raises the arithmetic error instead of returning a
guarded zero-count table. -/
theorem C2_counterexample :
    emptyStats.distribution DistKind.element = .error "ZeroDivisionError" ∧
    (emptyStats.distribution DistKind.element).isOk = false :=
  ⟨rfl, rfl⟩

/-- C2 (amended): for every `Stats` whose `data1` has zero planets and
every distribution kind, `distribution` fails with the division-by-zero
error (the percentage computation divides by the planet count with no
guard). -/
theorem C2_distribution_zero_planets (s : Stats) (k : DistKind)
    (h : s.data1.planets = []) :
    s.distribution k = .error "ZeroDivisionError" := by
  obtain ⟨d1, d2, lang, ca⟩ := s
  obtain ⟨ps, hs, q, e, w, n, so, asp, hof⟩ := d1
  simp only at h
  subst h
  cases k <;> rfl

/-- Witness for C2 at the concrete zero-planet `Stats`. -/
theorem C2_witness :
    emptyStats.data1.planets = [] ∧
    emptyStats.distribution DistKind.modality = .error "ZeroDivisionError" :=
  ⟨rfl, C2_distribution_zero_planets emptyStats DistKind.modality rfl⟩

/-- A sum of pointwise sums of two mapped functions splits. -/
theorem list_sum_map_add {α β : Type} [AddCommMonoid β] (l : List α) (f g : α → β) :
    (l.map fun x => f x + g x).sum = (l.map f).sum + (l.map g).sum := by
  induction l with
  | nil => simp
  | cons x t ih => simp [ih, add_add_add_comm]

/-- A constant factor moves out of a mapped sum. -/
theorem list_sum_map_mul_const {α : Type} (l : List α) (f : α → ℚ) (r : ℚ) :
    (l.map fun x => f x * r).sum = (l.map f).sum * r := by
  induction l with
  | nil => simp
  | cons x t ih => simp [ih, add_mul]

/-- The indicator sum over a list counts the occurrences of an element. -/
theorem list_sum_indicator (names : List String) (x : String) :
    (names.map fun n => if x = n then 1 else 0).sum = names.count x := by
  induction names with
  | nil => simp
  | cons n t ih =>
      by_cases h : x = n
      · subst h
        simp [List.count_cons, ih]
        omega
      · simp [List.count_cons, h, ih, eq_comm]

/-- Counting planets per category member over a member list covers every
planet exactly once when each planet's category occurs exactly once among
the member names. -/
theorem countP_sum_of_partition {α : Type} (ps : List α) (names : List String)
    (cat : α → String) (h : ∀ p ∈ ps, names.count (cat p) = 1) :
    (names.map fun n => ps.countP fun p => cat p == n).sum = ps.length := by
  induction ps with
  | nil => simp [List.countP_nil]
  | cons p t ih =>
      have hp := h p (by simp)
      have ht : ∀ q ∈ t, names.count (cat q) = 1 := fun q hq => h q (by simp [hq])
      simp only [List.countP_cons, beq_iff_eq]
      rw [list_sum_map_add, ih ht, list_sum_indicator, hp, List.length_cons]

/-- `mapM` over `Except` succeeds pointwise: if every element maps to an
`ok` value, the whole traversal is the `ok` of the mapped list. -/
theorem mapM_ok {ε α β : Type} (l : List α) (f : α → Except ε β) (g : α → β)
    (h : ∀ x ∈ l, f x = .ok (g x)) : l.mapM f = .ok (l.map g) := by
  induction l with
  | nil => rfl
  | cons x t ih =>
      have hx := h x (by simp)
      have ht : ∀ y ∈ t, f y = .ok (g y) := fun y hy => h y (by simp [hy])
      rw [List.mapM_cons, hx, ih ht]
      rfl

/-- With at least one planet the per-member row computation never fails
and carries the exact count and percentage. -/
theorem distRow_ok (s : Stats) (k : DistKind) (item : Member)
    (h : s.data1.planets ≠ []) :
    s.distRow k item =
      .ok [s.tr item.name, toString (s.distCount k item),
           fmt2 (s.distPercent k item) ++ "%"] := by
  have h0 : s.data1.planets.length ≠ 0 := by
    simpa [List.length_eq_zero] using h
  have hlen : (s.data1.planets.length : ℚ) ≠ 0 := by exact_mod_cast h0
  simp [Stats.distRow, pyDiv, hlen, Stats.distPercent]
  rfl

/-- With at least one planet `distribution` returns the `distStat`
table. -/
theorem distribution_ok (s : Stats) (k : DistKind) (h : s.data1.planets ≠ []) :
    s.distribution k = .ok (s.distStat k) := by
  unfold Stats.distribution
  rw [mapM_ok (distKindMembers k) (s.distRow k)
        (fun item => [s.tr item.name, toString (s.distCount k item),
                      fmt2 (s.distPercent k item) ++ "%"])
        (fun item _ => distRow_ok s k item h)]
  rfl

/-- C3: with a non-empty planet list whose categories partition totally
into the kind's member list, `distribution` succeeds with the `distStat`
rows, the counts across those rows sum to the planet count, and the
exact percentages sum to 100. -/
theorem C3_distribution_sums (s : Stats) (k : DistKind)
    (hne : s.data1.planets ≠ [])
    (hpart : ∀ p ∈ s.data1.planets,
      ((distKindMembers k).map Member.name).count (p.sign.category k) = 1) :
    s.distribution k = .ok (s.distStat k) ∧
    ((distKindMembers k).map fun item => s.distCount k item).sum
      = s.data1.planets.length ∧
    ((distKindMembers k).map fun item => s.distPercent k item).sum = 100 := by
  have hcount : ((distKindMembers k).map fun item => s.distCount k item).sum
      = s.data1.planets.length := by
    have hmain := countP_sum_of_partition s.data1.planets
      ((distKindMembers k).map Member.name) (fun p => p.sign.category k) hpart
    rw [List.map_map] at hmain
    exact hmain
  refine ⟨distribution_ok s k hne, hcount, ?_⟩
  have h0 : s.data1.planets.length ≠ 0 := by simpa [List.length_eq_zero] using hne
  have hlen : (s.data1.planets.length : ℚ) ≠ 0 := by exact_mod_cast h0
  have hstep : ((distKindMembers k).map fun item => s.distPercent k item).sum
      = ((distKindMembers k).map fun item => (s.distCount k item : ℚ)).sum
          * (100 / (s.data1.planets.length : ℚ)) := by
    rw [← list_sum_map_mul_const]
    apply congrArg
    apply List.map_congr_left
    intro item _
    rw [Stats.distPercent]
    field_simp
  rw [hstep]
  have hcast : ((distKindMembers k).map fun item => (s.distCount k item : ℚ)).sum
      = ((s.data1.planets.length : ℕ) : ℚ) := by
    have hmm : ((distKindMembers k).map fun item => (s.distCount k item : ℚ))
        = ((distKindMembers k).map fun item => s.distCount k item).map
            (fun n : ℕ => (n : ℚ)) := by
      rw [List.map_map]
      rfl
    rw [hmm, ← Nat.cast_list_sum, hcount]
  rw [hcast]
  field_simp

/-- Witness for C3 at the one-planet English `Stats` with the element
kind. -/
theorem C3_witness :
    sampleStats.distribution DistKind.element
      = .ok (sampleStats.distStat DistKind.element) ∧
    ((distKindMembers DistKind.element).map fun item =>
        sampleStats.distCount DistKind.element item).sum
      = sampleStats.data1.planets.length ∧
    ((distKindMembers DistKind.element).map fun item =>
        sampleStats.distPercent DistKind.element item).sum = 100 :=
  C3_distribution_sums sampleStats DistKind.element (by decide) (by decide)

/-- C4 counterexample: on a `Stats` whose `data1` has zero planets the
full report raises through `distribution` and returns no list at all. -/
theorem C4_counterexample :
    emptyStats.full_report = .error "ZeroDivisionError" ∧
    (emptyStats.full_report).isOk = false :=
  ⟨rfl, rfl⟩

/-- C4 (amended): for every `Stats` whose `data1` has at least one
planet, `full_report` returns exactly the spec's fixed section sequence
(basic info, three distributions in enum order, then each empty-grid
section header followed by its entries), and its length is
`1 + 3 + 1 + planets + 1 + houses + 1 + 4 + 1 + 4 + 1 + aspects`. -/
theorem C4_full_report_structure (s : Stats) (hne : s.data1.planets ≠ []) :
    s.full_report = .ok s.full_report_spec ∧
    s.full_report_spec.length
      = 1 + 3 + 1 + s.data1.planets.length + 1 + s.data1.houses.length
        + 1 + 4 + 1 + 4 + 1 + s.data1.aspects.length := by
  constructor
  · unfold Stats.full_report
    rw [mapM_ok DistKind.all s.distribution s.distStat
          (fun k _ => distribution_ok s k hne)]
    rfl
  · unfold Stats.full_report_spec
    simp [List.length_append, List.length_map]
    omega

/-- Witness for C4 at the one-planet `Stats`. -/
theorem C4_witness :
    sampleStats.full_report = .ok sampleStats.full_report_spec ∧
    sampleStats.full_report_spec.length
      = 1 + 3 + 1 + sampleStats.data1.planets.length + 1
        + sampleStats.data1.houses.length + 1 + 4 + 1 + 4 + 1
        + sampleStats.data1.aspects.length :=
  C4_full_report_structure sampleStats (by decide)

/-- C6 counterexample: "house 3 x" is not a word followed by just a
numeric suffix and has no table entry of its own, so the claim's fallback
clause prescribes the title-cased "House 3 X"; the code instead matches
on the second token being numeric and returns the Russian "house"
translation with the trailing token dropped. -/
theorem C6_counterexample :
    pySplit (pyLower "house 3 x") = ["house", "3", "x"] ∧
    TRANSLATIONS.lookup (pyLower "house 3 x") = none ∧
    pyTitle (replaceUnderscores "house 3 x") = "House 3 X" ∧
    get_translation "house 3 x" "ru" = "Дом 3" ∧
    get_translation "house 3 x" "ru" ≠ pyTitle (replaceUnderscores "house 3 x") :=
  ⟨by decide, by decide, by decide, by decide, by decide⟩

/-- C6 (amended): for every non-English language the lookup equals the
amended contract — lowercase, then the numeric-second-token rule with any
later tokens dropped when the first token is a table key, otherwise the
whole-key lookup with title-cased English fallback — and the claim's two
concrete examples hold. -/
theorem C6_translation_amended (text lang : String) (h : lang ≠ "en") :
    (get_translation text lang = translationAmendedSpec text lang) ∧
    get_translation "house 3" "ru" = "Дом 3" ∧
    get_translation "unknown_term" "es" = "Unknown Term" := by
  refine ⟨?_, by decide, by decide⟩
  unfold get_translation translationAmendedSpec
  rw [if_neg h]
  cases hsplit : pySplit (pyLower text) with
  | nil => simp [hsplit]
  | cons w1 rest =>
      cases rest with
      | nil => simp [hsplit]
      | cons w2 rest2 =>
          by_cases hd : pyIsDigit w2
          · cases hlk : TRANSLATIONS.lookup w1 with
            | some entry => simp [hsplit, hd, hlk]
            | none => simp [hsplit, hd, hlk]
          · simp [hsplit, hd]

/-- Witness for C6 at the claim's own example inputs. -/
theorem C6_witness :
    ("ru" : String) ≠ "en" ∧
    ((get_translation "house 3" "ru" = translationAmendedSpec "house 3" "ru") ∧
     get_translation "house 3" "ru" = "Дом 3" ∧
     get_translation "unknown_term" "es" = "Unknown Term") :=
  ⟨by decide, C6_translation_amended "house 3" "ru" (by decide)⟩
